import Mathlib

/-!
Verification development for the schema-extraction / DDL-generation core
(package model and the MySQL dialect of package dialect).

The Go source is embedded shallowly:
- reflect.Type values are modelled by the inductive RType (one constructor per
  reflect kind that the source inspects; named struct types carry their name).
- Columns and Models become Lean structures; Go pointers to Column objects are
  modelled by a numeric id field (two references are the same pointer iff their
  ids coincide); the process-wide model cache becomes an explicit ModelsMap
  value threaded through New and Clear.
- Fallible Go functions returning (T, error) become Except String T.
- Go map values (Cols, KeyIndexes, Meta, constraints, ...) are modelled as
  association lists with Go-map update semantics (assignment replaces the
  binding for an existing key).  Go map iteration order is unspecified; where
  the dialect iterates over a map (the column loop of CreateTableSQL) the
  iteration order is an explicit parameter constrained to be a permutation of
  the map's entries.
-/

set_option autoImplicit false

/-- A reflect.Type as inspected by the source: the source only looks at the
Kind of a type, at the element kind of slices and arrays, and compares struct
types against a fixed set of named struct types (the database/sql null
wrappers and time.Time). -/
inductive RType where
  | bool
  | int
  | int8
  | int16
  | int32
  | int64
  | uint
  | uint8
  | uint16
  | uint32
  | uint64
  | uintptr
  | float32
  | float64
  | string
  | slice (elem : RType)
  | array (elem : RType)
  | structT (name : String)
  | ptr (elem : RType)
  | other (name : String)
deriving DecidableEq, Repr

/-- The type name used in the unsupported-type error message (reflect.Type.Name). -/
def RType.name : RType → String
  | .bool => "bool"
  | .int => "int"
  | .int8 => "int8"
  | .int16 => "int16"
  | .int32 => "int32"
  | .int64 => "int64"
  | .uint => "uint"
  | .uint8 => "uint8"
  | .uint16 => "uint16"
  | .uint32 => "uint32"
  | .uint64 => "uint64"
  | .uintptr => "uintptr"
  | .float32 => "float32"
  | .float64 => "float64"
  | .string => "string"
  | .slice _ => ""
  | .array _ => ""
  | .structT n => n
  | .ptr _ => ""
  | .other n => n

/-- The struct type sql.NullBool, compared against col.GoType in sqlType. -/
def nullBool : RType := .structT "sql.NullBool"

/-- The struct type sql.NullFloat64. -/
def nullFloat64 : RType := .structT "sql.NullFloat64"

/-- The struct type sql.NullInt64. -/
def nullInt64 : RType := .structT "sql.NullInt64"

/-- The struct type sql.NullString. -/
def nullString : RType := .structT "sql.NullString"

/-- The struct type time.Time. -/
def timeType : RType := .structT "time.Time"

/-- The ten integer kinds listed by the switch statements of setAI and setOCC
(Int..Int64 and Uint..Uint64; Uintptr is not in either list). -/
def isIntegerKind : RType → Bool
  | .int | .int8 | .int16 | .int32 | .int64
  | .uint | .uint8 | .uint16 | .uint32 | .uint64 => true
  | _ => false

/-- One table column (model.Column).  The struct itself is not under src; its
fields are taken from their uses in the source (Name, GoType, Len1, Len2,
Nullable, HasDefault, Default).  The extra id field models the Go pointer
identity of the heap-allocated Column object: references held by PK, AI, OCC
and ForeignKey compare by id, as Go compares by pointer. -/
structure Column where
  id : Nat
  Name : String
  GoType : RType
  Len1 : Int
  Len2 : Int
  Nullable : Bool
  HasDefault : Bool
  Default : String
deriving DecidableEq, Repr

/-- The namespace tag of a registered constraint name (conType of the source,
whose declaration is not under src; the constants none, index, unique, fk and
check are taken from their uses). -/
inductive ConType where
  | none
  | index
  | unique
  | fk
  | check
deriving DecidableEq, Repr

/-- Rendering of a conType inside error messages. -/
def conTypeName : ConType → String
  | .none => "none"
  | .index => "index"
  | .unique => "unique"
  | .fk => "fk"
  | .check => "check"

/-- One foreign key (model.ForeignKey).  Col models the *Column reference. -/
structure ForeignKey where
  Col : Column
  RefTableName : String
  RefColName : String
  UpdateRule : String
  DeleteRule : String
deriving DecidableEq, Repr

/-- Association-list lookup, modelling a Go map read m[k] (ok form). -/
def alookup {α : Type} : List (String × α) → String → Option α
  | [], _ => Option.none
  | (k, v) :: rest, key => if k = key then some v else alookup rest key

/-- Association-list update, modelling a Go map assignment m[k] = v: the
binding of an existing key is replaced, a new key is appended. -/
def aset {α : Type} : List (String × α) → String → α → List (String × α)
  | [], key, v => [(key, v)]
  | (k, w) :: rest, key, v =>
    if k = key then (key, v) :: rest else (k, w) :: aset rest key v

/-- A table model (model.Model).  Maps become association lists; constraints
is the case-handling constraint-name registry. -/
structure Model where
  Name : String
  Cols : List (String × Column)
  KeyIndexes : List (String × List Column)
  UniqueIndexes : List (String × List Column)
  FK : List (String × ForeignKey)
  PK : List Column
  AI : Option Column
  OCC : Option Column
  Check : List (String × String)
  Meta : List (String × List String)
  constraints : List (String × ConType)
deriving DecidableEq, Repr

/-- Modelled from the spec: Column.IsAI is not under src; per the spec a
column is the auto-increment column iff it equals the Model's AI reference
(pointer equality, modelled by id). -/
def Model.IsAI (m : Model) (c : Column) : Bool :=
  match m.AI with
  | some a => a.id == c.id
  | Option.none => false

/-- Digit value of an ASCII digit character. -/
def digitVal (c : Char) : Option Nat :=
  if '0' ≤ c ∧ c ≤ '9' then some (c.toNat - '0'.toNat) else Option.none

/-- Decimal value of a digit list (empty and non-digit lists rejected). -/
def digitsToNat : List Char → Option Nat → Option Nat
  | [], acc => acc
  | c :: rest, acc =>
    match digitVal c, acc with
    | some d, some n => digitsToNat rest (some (n * 10 + d))
    | some d, Option.none => digitsToNat rest (some d)
    | Option.none, _ => Option.none

/-- Modelled from the spec: the integer parser strconv.Atoi of the Go
standard library, for the decimal literals used in len clauses (an optional
leading minus sign followed by ASCII digits).  Implemented structurally so
that concrete builds reduce inside the kernel. -/
def strToInt (s : String) : Option Int :=
  match s.data with
  | '-' :: rest => (digitsToNat rest Option.none).map (fun n => -(n : Int))
  | l => (digitsToNat l Option.none).map (fun n => (n : Int))

/-- strings.ToLower for the ASCII constraint names handled here, implemented
structurally so that concrete builds reduce inside the kernel. -/
def lowerStr (s : String) : String :=
  ⟨s.data.map Char.toLower⟩

/-- Modelled from the spec: the external tokenizer strconv.ParseBool of the Go
standard library accepts 1, t, T, TRUE, true, True as true and 0, f, F,
FALSE, false, False as false; anything else is a syntax error. -/
def parseBool (s : String) : Except String Bool :=
  if s = "1" || s = "t" || s = "T" || s = "TRUE" || s = "true" || s = "True" then
    .ok true
  else if s = "0" || s = "f" || s = "F" || s = "FALSE" || s = "false" || s = "False" then
    .ok false
  else
    .error ("strconv.ParseBool: parsing " ++ s ++ ": invalid syntax")

/-- mysql.sqlType (dialect/mysql.go).  The Go function appends the type text
to a builder and returns an error; every error return happens before any
write, so it is modelled as returning the appended text.  Note the inner
switch of the reflect.Struct case has no default branch: a struct type other
than the four sql null wrappers and time.Time produces no text and no error. -/
def sqlType (col : Column) : Except String String :=
  let addIntLen (s : String) : String :=
    if col.Len1 > 0 then s ++ "(" ++ toString col.Len1 ++ ")" else s
  match col.GoType with
  | .bool => .ok "BOOLEAN"
  | .int8 => .ok (addIntLen "SMALLINT")
  | .int16 => .ok (addIntLen "MEDIUMINT")
  | .int32 => .ok (addIntLen "INT")
  | .int64 => .ok (addIntLen "BIGINT")
  | .int => .ok (addIntLen "BIGINT")
  | .uint8 => .ok (addIntLen "SMALLINT" ++ " UNSIGNED")
  | .uint16 => .ok (addIntLen "MEDIUMINT" ++ " UNSIGNED")
  | .uint32 => .ok (addIntLen "INT" ++ " UNSIGNED")
  | .uint64 => .ok (addIntLen "BIGINT" ++ " UNSIGNED")
  | .uint => .ok (addIntLen "BIGINT" ++ " UNSIGNED")
  | .uintptr => .ok (addIntLen "BIGINT" ++ " UNSIGNED")
  | .float32 =>
    if col.Len1 = 0 || col.Len2 = 0 then .error "请指定长度"
    else .ok ("DOUBLE(" ++ toString col.Len1 ++ "," ++ toString col.Len2 ++ ")")
  | .float64 =>
    if col.Len1 = 0 || col.Len2 = 0 then .error "请指定长度"
    else .ok ("DOUBLE(" ++ toString col.Len1 ++ "," ++ toString col.Len2 ++ ")")
  | .string =>
    if col.Len1 = -1 || col.Len1 > 65533 then .ok "LONGTEXT"
    else .ok ("VARCHAR(" ++ toString col.Len1 ++ ")")
  | .slice e =>
    if e ≠ .uint8 && e ≠ .int32 then
      .error ("sqlType:不支持[" ++ e.name ++ "]类型的数组")
    else if col.Len1 = -1 || col.Len1 > 65533 then .ok "LONGTEXT"
    else .ok ("VARCHAR(" ++ toString col.Len1 ++ ")")
  | .array e =>
    if e ≠ .uint8 && e ≠ .int32 then
      .error ("sqlType:不支持[" ++ e.name ++ "]类型的数组")
    else if col.Len1 = -1 || col.Len1 > 65533 then .ok "LONGTEXT"
    else .ok ("VARCHAR(" ++ toString col.Len1 ++ ")")
  | .structT n =>
    if RType.structT n = nullBool then .ok "BOOLEAN"
    else if RType.structT n = nullFloat64 then
      if col.Len1 = 0 || col.Len2 = 0 then .error "请指定长度"
      else .ok ("DOUBLE(" ++ toString col.Len1 ++ "," ++ toString col.Len2 ++ ")")
    else if RType.structT n = nullInt64 then .ok (addIntLen "BIGINT")
    else if RType.structT n = nullString then
      if col.Len1 = -1 || col.Len1 > 65533 then .ok "LONGTEXT"
      else .ok ("VARCHAR(" ++ toString col.Len1 ++ ")")
    else if RType.structT n = timeType then .ok "DATETIME"
    else .ok ""
  | t => .error ("sqlType:不支持的类型:[" ++ t.name ++ "]")

deriving instance DecidableEq for Except

example : sqlType ⟨0, "C", RType.int8, 0, 0, false, false, ""⟩ = .ok "SMALLINT" := by decide
example : sqlType ⟨0, "C", RType.string, -1, 0, false, false, ""⟩ = .ok "LONGTEXT" := by decide
example : sqlType ⟨0, "C", RType.structT "X", 0, 0, false, false, ""⟩ = .ok "" := by decide

/-- Modelled from the spec: the orm struct tag of one field, as delivered by
the external Annotation Parser (internal/tags, not under src).  Per the spec
it is an ordered mapping from clause key to an ordered argument sequence; the
source additionally distinguishes the empty tag and the literal skip marker
before invoking the parser. -/
inductive Tag where
  | noTag
  | skip
  | clauses (cs : List (String × List String))
deriving DecidableEq, Repr

/-- The declaration-ordered field list of a record type (the part of a
reflect struct type that parseColumns inspects).  An anon node is an
anonymous (embedded) field: it carries the embedded struct type's name and
its own field list, into which parseColumns recurses. -/
inductive Fields where
  | nil
  | plain (Name : String) (ty : RType) (tag : Tag) (rest : Fields)
  | anon (name : String) (sub : Fields) (rest : Fields)
deriving DecidableEq, Repr

/-- A record (struct) type: the cache key of the model cache. -/
structure Rec where
  name : String
  fields : Fields
deriving DecidableEq, Repr

/-- A value passed to model.New: a chain of pointers ending either in a
struct value (whose type is a Rec, and which optionally implements the Metaer
capability, modelled as the parsed meta clause list) or in a value of some
other kind. -/
inductive GoVal where
  | ptr (v : GoVal)
  | structV (typ : Rec) (meta : Option (List (String × List String)))
  | nonStruct (kind : String)

/-- model.Model.hasConstraint: probes the registry under the lowercased name
and reports the owning namespace unless it is the probing namespace itself.
Note the registration sites store names verbatim, not lowercased. -/
def Model.hasConstraint (m : Model) (name : String) (except : ConType) : ConType :=
  match alookup m.constraints (lowerStr name) with
  | some typ => if typ ≠ except then typ else ConType.none
  | Option.none => ConType.none

/-- model.Model.setIndex. -/
def Model.setIndex (m : Model) (col : Column) (vals : List String) : Except String Model :=
  match vals with
  | [v] =>
    match m.hasConstraint v ConType.index with
    | ConType.none =>
      .ok { m with
        constraints := aset m.constraints v ConType.index,
        KeyIndexes := aset m.KeyIndexes v (((alookup m.KeyIndexes v).getD []) ++ [col]) }
    | typ =>
      .error ("setIndex:已经存在相同的约束名[" ++ v ++ "]，位于[" ++ conTypeName typ ++ "]中")
  | _ => .error ("setIndex:[" ++ col.Name ++ "]字段的index属性指定了太多的参数")

/-- model.Model.setPK. -/
def Model.setPK (m : Model) (col : Column) (vals : List String) : Except String Model :=
  if col.HasDefault then
    .error ("setPK:不能将一个含有默认值的列[" ++ col.Name ++ "]设置为主键")
  else if vals.length ≠ 0 then
    .error ("setPK:[" ++ col.Name ++ "]字段的pk属性指定了太多的参数")
  else if m.AI.isSome then
    .error "setPK:已经存在自增列，不需要再次指定主键"
  else
    .ok { m with PK := m.PK ++ [col] }

/-- model.Model.setUnique. -/
def Model.setUnique (m : Model) (col : Column) (vals : List String) : Except String Model :=
  match vals with
  | [v] =>
    match m.hasConstraint v ConType.unique with
    | ConType.none =>
      .ok { m with
        constraints := aset m.constraints v ConType.unique,
        UniqueIndexes := aset m.UniqueIndexes v (((alookup m.UniqueIndexes v).getD []) ++ [col]) }
    | typ =>
      .error ("setUnique:已经存在相同的约束名[" ++ v ++ "]，位于[" ++ conTypeName typ ++ "]中")
  | _ => .error ("setUnique:[" ++ col.Name ++ "]字段的unique属性只能带一个参数")

/-- model.Model.setFK.  Arity: fewer than 3 arguments is an error; arguments
3 and 4 (0-based) become the update and delete rules when present; arguments
beyond the fifth are not inspected. -/
def Model.setFK (m : Model) (col : Column) (vals : List String) : Except String Model :=
  match vals with
  | v0 :: v1 :: v2 :: rest =>
    match m.hasConstraint v0 ConType.fk with
    | ConType.none =>
      if (alookup m.FK v0).isSome then
        .error ("setFK:重复的外键约束名:[" ++ v0 ++ "]")
      else
        .ok { m with
          constraints := aset m.constraints v0 ConType.fk,
          FK := aset m.FK v0 ⟨col, v1, v2, rest.getD 0 "", rest.getD 1 ""⟩ }
    | typ =>
      .error ("setFK:已经存在相同的约束名[" ++ v0 ++ "]，位于[" ++ conTypeName typ ++ "]中")
  | _ => .error "setFK:fk参数必须大于3个"

/-- model.Model.setAI: rejects a default value, arguments, nullability and
non-integer kinds, then sets AI and replaces the whole PK list by the single
auto-increment column. -/
def Model.setAI (m : Model) (col : Column) (vals : List String) : Except String Model :=
  if col.HasDefault then
    .error ("setAI:不能将一个含有默认值的列[" ++ col.Name ++ "]设置为自增")
  else if vals.length ≠ 0 then
    .error ("setAI:[" ++ col.Name ++ "]字段的ai属性指定了太多的参数")
  else if col.Nullable then
    .error ("setAI:nullable列不能为自增列[" ++ col.Name ++ "]")
  else if isIntegerKind col.GoType = false then
    .error "setAI:自增列只能是整数类型"
  else
    .ok { m with AI := some col, PK := [col] }

/-- model.Model.setOCC: the auto-increment / nullable / duplicate-OCC /
integer-kind preconditions are checked before the optional boolean argument
is read; with argument false the model is left unchanged. -/
def Model.setOCC (m : Model) (c : Column) (vals : List String) : Except String Model :=
  if m.IsAI c || c.Nullable then
    .error "自增列和允许为空的列不能作为乐观锁列"
  else if m.OCC.isSome then
    .error "已经存在一个乐观锁"
  else if isIntegerKind c.GoType = false then
    .error "乐观锁只能是数值类型"
  else
    match vals with
    | [] => .ok { m with OCC := some c }
    | [v] =>
      match parseBool v with
      | .error e => .error e
      | .ok b => .ok (if b then { m with OCC := some c } else m)
    | _ => .error ("[" ++ c.Name ++ "]字段的 occ 属性指定了太多的值")

/-- model.Model.setDefault: rejected for the AI column and for PK columns
(pointer comparisons, modelled by id); mutates the column, not the model. -/
def Model.setDefault (m : Model) (col : Column) (vals : List String) : Except String Column :=
  if (match m.AI with | some a => a.id == col.id | Option.none => false) then
    .error "setDefault:自增列不能设置默认值"
  else if m.PK.any (fun c => c.id == col.id) then
    .error "setDefault:不能为主键设置默认值"
  else
    match vals with
    | [v] => .ok { col with HasDefault := true, Default := v }
    | _ => .error ("setDefault:[" ++ col.Name ++ "]字段的default属性指定了太多的参数")

/-- Modelled from the spec: Column.setNullable is not under src; per the spec
the nullable clause takes zero or one boolean-literal argument and sets the
column's nullability (an absent argument means true). -/
def Column.setNullable (c : Column) (vals : List String) : Except String Column :=
  match vals with
  | [] => .ok { c with Nullable := true }
  | [v] =>
    match parseBool v with
    | .error e => .error e
    | .ok b => .ok { c with Nullable := b }
  | _ => .error ("setNullable:[" ++ c.Name ++ "]字段的nullable属性指定了太多的参数")

/-- Modelled from the spec: Column.setLen is not under src; per the spec the
len clause takes one or two integer arguments stored into Len1 and Len2. -/
def Column.setLen (c : Column) (vals : List String) : Except String Column :=
  match vals with
  | [v] =>
    match strToInt v with
    | some n => .ok { c with Len1 := n }
    | Option.none => .error ("setLen:[" ++ v ++ "]不是一个有效的整数")
  | [v1, v2] =>
    match strToInt v1, strToInt v2 with
    | some n1, some n2 => .ok { c with Len1 := n1, Len2 := n2 }
    | _, _ => .error "setLen:无效的整数参数"
  | _ => .error ("setLen:[" ++ c.Name ++ "]字段的len属性参数个数错误")

/-- One iteration of the clause switch of model.Model.parseColumn: dispatches
a clause key to its handler; handlers mutate the model, the column, or
neither (each handler is atomic: on error nothing has been mutated). -/
def applyClause (m : Model) (col : Column) (k : String) (v : List String) :
    Except String (Model × Column) :=
  if k = "name" then
    match v with
    | [n] => .ok (m, { col with Name := n })
    | _ => .error ("parseColumn:name属性指定了太多的参数")
  else if k = "index" then (m.setIndex col v).map (fun m2 => (m2, col))
  else if k = "pk" then (m.setPK col v).map (fun m2 => (m2, col))
  else if k = "unique" then (m.setUnique col v).map (fun m2 => (m2, col))
  else if k = "nullable" then (col.setNullable v).map (fun c2 => (m, c2))
  else if k = "ai" then (m.setAI col v).map (fun m2 => (m2, col))
  else if k = "len" then (col.setLen v).map (fun c2 => (m, c2))
  else if k = "fk" then (m.setFK col v).map (fun m2 => (m2, col))
  else if k = "default" then (m.setDefault col v).map (fun c2 => (m, c2))
  else if k = "occ" then (m.setOCC col v).map (fun m2 => (m2, col))
  else .error ("parseColumn:未知的struct tag属性:[" ++ k ++ "]")

/-- The clause loop of parseColumn.  On the first failing clause the loop
stops; the state mutated by the earlier (successful) clauses is kept, exactly
as the in-place mutations of the Go code persist when the method returns an
error. -/
def applyClauses : Model → Column → List (String × List String) →
    (Model × Column) × Option String
  | m, col, [] => ((m, col), Option.none)
  | m, col, (k, v) :: rest =>
    match applyClause m col k v with
    | .ok (m2, col2) => applyClauses m2 col2 rest
    | .error e => ((m, col), some e)

/-- True when the field name starts with a lowercase letter (the unexported
check unicode.IsLower(rune(field.Name[0])); field names here are ASCII). -/
def isLowerInitial (s : String) : Bool :=
  match s.data with
  | [] => false
  | c :: _ => c.isLower

/-- Modelled from the spec: model.newColumn is not under src; per the spec it
constructs a provisional Column from the field's host type and name, with
length, nullability and default unset.  nid is the fresh pointer id. -/
def newColumn (Name : String) (ty : RType) (nid : Nat) : Column :=
  ⟨nid, Name, ty, 0, 0, false, false, ""⟩

/-- model.Model.parseColumn for one non-anonymous field.  The result carries
the (possibly partially mutated) model together with an optional error, so
that a caller that ignores the error (parseColumns on anonymous fields)
observes exactly the mutations the Go code leaves behind.  The column is
inserted into Cols only after all clauses succeeded, because the name clause
may have renamed it. -/
def Model.parseColumn (m : Model) (nid : Nat) (Name : String) (ty : RType) (tag : Tag) :
    (Model × Nat) × Option String :=
  if isLowerInitial Name then ((m, nid), Option.none)
  else
    match tag with
    | Tag.skip => ((m, nid), Option.none)
    | Tag.noTag =>
      let col := newColumn Name ty nid
      (({ m with Cols := aset m.Cols col.Name col }, nid + 1), Option.none)
    | Tag.clauses cs =>
      let col := newColumn Name ty nid
      match applyClauses m col cs with
      | ((m2, col2), Option.none) =>
        (({ m2 with Cols := aset m2.Cols col2.Name col2 }, nid + 1), Option.none)
      | ((m2, _), some e) => ((m2, nid + 1), some e)

/-- model.Model.parseColumns: walks the fields in declaration order; for an
anonymous field it recurses into the embedded struct's fields and DISCARDS
the returned error (the source calls m.parseColumns(rval.Field(i)) without
using its result), then continues with the remaining fields. -/
def parseFields (m : Model) (nid : Nat) : Fields → (Model × Nat) × Option String
  | Fields.nil => ((m, nid), Option.none)
  | Fields.plain Name ty tag rest =>
    match m.parseColumn nid Name ty tag with
    | (s, Option.none) => parseFields s.1 s.2 rest
    | (s, some e) => (s, some e)
  | Fields.anon _ sub rest =>
    let s := (parseFields m nid sub).1
    parseFields s.1 s.2 rest

/-- model.Model.parseMeta: applies the table-level clauses of the Metaer
capability; name renames the table, check registers a check constraint
(rejecting duplicates in any namespace), every other key is stored verbatim
in Meta. -/
def parseMetaClauses : Model → List (String × List String) → Except String Model
  | m, [] => .ok m
  | m, (k, v) :: rest =>
    if k = "name" then
      match v with
      | [n] => parseMetaClauses { m with Name := n } rest
      | _ => .error "parseMeta:Meta接口的name属性指定了太多参数"
    else if k = "check" then
      match v with
      | [cname, expr] =>
        if (alookup m.Check cname).isSome then
          .error ("parseMeta:已经存在相同名称[" ++ cname ++ "]的Check约束")
        else
          match m.hasConstraint cname ConType.check with
          | ConType.none =>
            parseMetaClauses
              { m with
                constraints := aset m.constraints cname ConType.check,
                Check := aset m.Check cname expr } rest
          | typ =>
            .error ("parseMeta:已经存在相同的约束名[" ++ cname ++ "]，位于[" ++
              conTypeName typ ++ "]中")
      | _ => .error "parseMeta:Meta接口的check属性的参数只能为2个"
    else
      parseMetaClauses { m with Meta := aset m.Meta k v } rest

/-- model.Model.parseMeta: a value that is not a Metaer is accepted as-is. -/
def Model.parseMeta (m : Model) (meta : Option (List (String × List String))) :
    Except String Model :=
  match meta with
  | Option.none => .ok m
  | some tgs => if tgs.length = 0 then .ok m else parseMetaClauses m tgs

/-- The uncached part of model.New: the fresh Model literal, parseColumns,
then parseMeta.  Column pointer ids are allocated from 0 per build, so a
rebuild of the same record type yields a structurally equal Model. -/
def buildModel (rt : Rec) (meta : Option (List (String × List String))) :
    Except String Model :=
  let m : Model :=
    ⟨rt.name, [], [], [], [], [], Option.none, Option.none, [], [], []⟩
  match parseFields m 0 rt.fields with
  | (_, some e) => .error e
  | ((m2, _), Option.none) => m2.parseMeta meta

/-- The process-wide model cache (modelsMap).  items maps a record type to
the cached Model together with the instance id of the *Model pointer; nextId
models the allocator, so that instances created after a Clear are distinct
from every earlier instance. -/
structure ModelsMap where
  items : List (Rec × Nat × Model)
  nextId : Nat
deriving DecidableEq, Repr

/-- The initial empty cache. -/
def emptyModels : ModelsMap := ⟨[], 0⟩

/-- Cache lookup by record type (the Go map indexed by reflect.Type). -/
def lookupModels : List (Rec × Nat × Model) → Rec → Option (Nat × Model)
  | [], _ => Option.none
  | (r, p) :: rest, rt => if r = rt then some p else lookupModels rest rt

/-- model.New: dereferences pointers, rejects non-struct kinds, returns the
cached instance when present, otherwise builds, caches and returns a fresh
instance.  The instance id models the identity of the returned *Model. -/
def derefGoVal : GoVal → GoVal
  | .ptr v => derefGoVal v
  | v => v

/-- model.New (see derefGoVal for the pointer loop). -/
def New (obj : GoVal) (cache : ModelsMap) :
    Except String ((Nat × Model) × ModelsMap) :=
  match derefGoVal obj with
  | .structV rt meta =>
    match lookupModels cache.items rt with
    | some p => .ok (p, cache)
    | Option.none =>
      match buildModel rt meta with
      | .error e => .error e
      | .ok m =>
        .ok ((cache.nextId, m), ⟨cache.items ++ [(rt, cache.nextId, m)], cache.nextId + 1⟩)
  | _ => .error "数据模型只能是结构体或是结构体指针"

/-- model.Clear: drops every cached Model.  nextId persists: a Model built
after a Clear is a new allocation, distinct from all previous instances. -/
def Clear (c : ModelsMap) : ModelsMap := ⟨[], c.nextId⟩

/-- Modelled from the spec: the DDL Text Builder collaborator (sqlbuilder,
not under src).  TruncateLast(n) drops the last n bytes of the accumulated
text; every separator truncated in this development is one ASCII comma. -/
def truncateLast (w : String) (n : Nat) : String :=
  ⟨w.data.take (w.data.length - n)⟩

/-- Modelled from the spec: createColSQL is not under src; per the spec each
column is rendered via the type-mapping algorithm.  The placeholder-quoted
column name is written, then a space, then the type text produced by sqlType
(further per-column attributes are not specified by the spec for the claims
treated here and are omitted). -/
def createColSQL (w : String) (col : Column) : Except String String :=
  match sqlType col with
  | .error e => .error e
  | .ok t => .ok (w ++ "\x7b" ++ col.Name ++ "\x7d " ++ t)

/-- Modelled from the spec: the pkName constant is not under src; the
reference implementation names the table-level primary-key constraint pk. -/
def pkName : String := "pk"

/-- Modelled from the spec: createPKSQL is not under src; per the spec it
emits the primary-key constraint clause listing the PK columns. -/
def createPKSQL (w : String) (pk : List Column) (nm : String) : String :=
  let w := w ++ " CONSTRAINT " ++ nm ++ " PRIMARY KEY("
  let w := pk.foldl (fun w c => w ++ "\x7b" ++ c.Name ++ "\x7d,") w
  truncateLast w 1 ++ ")"

/-- Modelled from the spec: createConstraints is not under src; per the spec
it emits the check constraints and then the foreign-key constraints, each
clause followed by a comma.  (Both maps are empty in every model treated
below, so their Go-map iteration order is immaterial here.) -/
def createConstraints (w : String) (m : Model) : String :=
  let w := m.Check.foldl
    (fun w p => w ++ " CONSTRAINT " ++ p.1 ++ " CHECK(" ++ p.2 ++ "),") w
  m.FK.foldl
    (fun w p =>
      w ++ " CONSTRAINT " ++ p.1 ++ " FOREIGN KEY(\x7b" ++ p.2.Col.Name ++
        "\x7d) REFERENCES " ++ p.2.RefTableName ++ "(\x7b" ++ p.2.RefColName ++ "\x7d),") w

/-- mysql.createIndexSQL: INDEX name(col,col,...) per key index, each clause
followed by a comma.  (KeyIndexes is a Go map; its iteration order is taken
from the association list, and every model below has at most one index.) -/
def createIndexSQL (w : String) (idxs : List (String × List Column)) : String :=
  idxs.foldl
    (fun w p =>
      let w := w ++ " INDEX " ++ p.1 ++ "("
      let w := p.2.foldl (fun w c => w ++ "\x7b" ++ c.Name ++ "\x7d" ++ ",") w
      truncateLast w 1 ++ "),") w

/-- mysql.createTableOptions: engine and charset must carry exactly one
argument when present; an empty argument list silently emits nothing. -/
def createTableOptions (w : String) (m : Model) : Except String String :=
  let eng := (alookup m.Meta "engine").getD []
  match eng with
  | [e] =>
    let w := w ++ " ENGINE=" ++ e ++ " "
    let cs := (alookup m.Meta "charset").getD []
    match cs with
    | [c] => .ok (w ++ " CHARACTER SET=" ++ c ++ " ")
    | [] => .ok w
    | _ => .error "无效的属性值 charset"
  | [] =>
    let cs := (alookup m.Meta "charset").getD []
    match cs with
    | [c] => .ok (w ++ " CHARACTER SET=" ++ c ++ " ")
    | [] => .ok w
    | _ => .error "无效的属性值 charset"
  | _ => .error "无效的属性值 engine"

/-- The column loop of mysql.CreateTableSQL: every non-AI column is rendered
followed by a comma; the AI column is skipped. -/
def colsLoop (m : Model) (w : String) : List (String × Column) → Except String String
  | [] => .ok w
  | (_, col) :: rest =>
    if m.IsAI col then colsLoop m w rest
    else
      match createColSQL w col with
      | .error e => .error e
      | .ok w2 => colsLoop m (w2.push ',') rest

/-- mysql.CreateTableSQL.  colsOrd is the iteration order of the Go map
model.Cols (unspecified by Go; the theorems below quantify over, or exhibit,
permutations of the map's entries).  Assembly: header, AI column with inline
PRIMARY KEY AUTO_INCREMENT, remaining columns, the PK constraint unless the
primary key is the AI column, check and FK constraints, key indexes, the
trailing separator truncated, the closing parenthesis, table options.  The
result is a single statement. -/
def CreateTableSQLOrd (m : Model) (colsOrd : List (String × Column)) :
    Except String (List String) :=
  let w := "CREATE TABLE IF NOT EXISTS " ++ "\x7b#" ++ m.Name ++ "\x7d("
  let step1 : Except String String :=
    match m.AI with
    | some ai =>
      match createColSQL w ai with
      | .error e => .error e
      | .ok w2 => .ok (w2 ++ " PRIMARY KEY AUTO_INCREMENT,")
    | Option.none => .ok w
  match step1 with
  | .error e => .error e
  | .ok w =>
    match colsLoop m w colsOrd with
    | .error e => .error e
    | .ok w =>
      let w :=
        match m.PK with
        | [] => w
        | p :: _ => if m.IsAI p then w else createPKSQL w m.PK pkName ++ ","
      let w := createConstraints w m
      let w := createIndexSQL w m.KeyIndexes
      let w := truncateLast w 1 ++ ")"
      match createTableOptions w m with
      | .error e => .error e
      | .ok w => .ok [w]

/-! Concrete record types and models used by the claim theorems below. -/

/-- The record type with one embedded (anonymous) field whose sub-field F
carries an unknown annotation key. -/
def c2rec : Rec :=
  ⟨"Outer",
    Fields.anon "Inner"
      (Fields.plain "F" RType.int8 (Tag.clauses [("nosuch", [])]) Fields.nil)
      Fields.nil⟩

/-- The record type registering the key-index name Idx on field A and the
unique-index name idx (same name up to letter case) on field B. -/
def c3rec : Rec :=
  ⟨"T3",
    Fields.plain "A" RType.string (Tag.clauses [("index", ["Idx"])])
      (Fields.plain "B" RType.string (Tag.clauses [("unique", ["idx"])]) Fields.nil)⟩

/-- The end-to-end record of the spec: ID int tagged ai, Name string tagged
len(50), Score float64 tagged len(5,2). -/
def c5rec : Rec :=
  ⟨"User",
    Fields.plain "ID" RType.int (Tag.clauses [("ai", [])])
      (Fields.plain "Name" RType.string (Tag.clauses [("len", ["50"])])
        (Fields.plain "Score" RType.float64 (Tag.clauses [("len", ["5", "2"])]) Fields.nil))⟩

/-- The ID column of the end-to-end record after building. -/
def c5col0 : Column := ⟨0, "ID", RType.int, 0, 0, false, false, ""⟩

/-- The Name column of the end-to-end record after building. -/
def c5col1 : Column := ⟨1, "Name", RType.string, 50, 0, false, false, ""⟩

/-- The Score column of the end-to-end record after building. -/
def c5col2 : Column := ⟨2, "Score", RType.float64, 5, 2, false, false, ""⟩

/-- The Model built from c5rec (checked against buildModel below). -/
def c5model : Model :=
  ⟨"User", [("ID", c5col0), ("Name", c5col1), ("Score", c5col2)],
   [], [], [], [c5col0], some c5col0, Option.none, [], [], []⟩

example : buildModel c5rec Option.none = .ok c5model := by decide

/-- A column whose host type is a struct type with no dialect mapping. -/
def c6col : Column := ⟨0, "C", RType.structT "X", 0, 0, false, false, ""⟩

/-- A model holding only the unmapped-struct column. -/
def c6model : Model :=
  ⟨"M6", [("C", c6col)], [], [], [], [], Option.none, Option.none, [], [], []⟩

/-- A one-field record type used for the caching claim. -/
def c7rec : Rec := ⟨"T7", Fields.plain "ID" RType.int64 Tag.noTag Fields.nil⟩

/-- The value of type c7rec handed to New. -/
def c7obj : GoVal := GoVal.structV c7rec Option.none

/-- The Model built from c7rec. -/
def c7model : Model :=
  ⟨"T7", [("ID", ⟨0, "ID", RType.int64, 0, 0, false, false, ""⟩)],
   [], [], [], [], Option.none, Option.none, [], [], []⟩

/-- The cache state after the first successful build of c7rec. -/
def c7cache : ModelsMap := ⟨[(c7rec, 0, c7model)], 1⟩

/-- A record whose second field is renamed (by the name clause) to the first
field's column name. -/
def c8rec : Rec :=
  ⟨"T8",
    Fields.plain "A" RType.int64 Tag.noTag
      (Fields.plain "B" RType.int64 (Tag.clauses [("name", ["A"])]) Fields.nil)⟩

/-- An empty model used for the handler-level foreign-key claims. -/
def fkModel : Model :=
  ⟨"TF", [], [], [], [], [], Option.none, Option.none, [], [], []⟩

/-- A column used for the handler-level foreign-key claims. -/
def fkCol : Column := ⟨0, "C", RType.int64, 0, 0, false, false, ""⟩

/-- An empty model used for the optimistic-lock claims. -/
def occModel : Model :=
  ⟨"TO", [], [], [], [], [], Option.none, Option.none, [], [], []⟩

/-- An integer, non-nullable column. -/
def occIntCol : Column := ⟨0, "V", RType.int, 0, 0, false, false, ""⟩

/-- A nullable integer column. -/
def occNullCol : Column := ⟨0, "V", RType.int, 0, 0, true, false, ""⟩

/-- A string (non-integer) column. -/
def occStrCol : Column := ⟨0, "V", RType.string, 0, 0, false, false, ""⟩

/-- occModel with occIntCol as its auto-increment column. -/
def occModelAI : Model := { occModel with AI := some occIntCol }

/-- occModel that already owns an optimistic-lock column. -/
def occModelOCC : Model :=
  { occModel with OCC := some ⟨1, "W", RType.int, 0, 0, false, false, ""⟩ }

/-! Claim theorems. -/

/-- C4: for the MySQL dialect's type mapping, int8 renders SMALLINT; uint32
with Len1 = 0 renders INT UNSIGNED with no length suffix; string with
Len1 = 100 renders VARCHAR(100); string with Len1 = -1 renders LONGTEXT;
float64 with Len1 = 10 and Len2 = 2 renders DOUBLE(10,2). -/
theorem mysql_type_mapping :
    sqlType ⟨0, "C", RType.int8, 0, 0, false, false, ""⟩ = .ok "SMALLINT" ∧
    sqlType ⟨0, "C", RType.uint32, 0, 0, false, false, ""⟩ = .ok "INT UNSIGNED" ∧
    sqlType ⟨0, "C", RType.string, 100, 0, false, false, ""⟩ = .ok "VARCHAR(100)" ∧
    sqlType ⟨0, "C", RType.string, -1, 0, false, false, ""⟩ = .ok "LONGTEXT" ∧
    sqlType ⟨0, "C", RType.float64, 10, 2, false, false, ""⟩ = .ok "DOUBLE(10,2)" := by
  decide

/-- C1 (counterexample): a field tagged ai;pk, in that order, does NOT build:
setPK rejects the clause because the ai clause already registered the
auto-increment column, so Build fails instead of succeeding as claimed. -/
theorem ai_then_pk_fails :
    buildModel ⟨"T1", Fields.plain "ID" RType.int (Tag.clauses [("ai", []), ("pk", [])]) Fields.nil⟩
        Option.none
      = .error "setPK:已经存在自增列，不需要再次指定主键" := by
  decide

/-- C1 (amended): for an exported field of integer kind, the order pk;ai
builds a Model whose AI is that column and whose PK is exactly the
single-element list of that column, while the order ai;pk fails with an
error (setPK rejects a pk clause once an AI column exists). -/
theorem pk_then_ai_builds (nm : String) (t : RType)
    (hu : isLowerInitial nm = false) (hi : isIntegerKind t = true) :
    (∃ col : Column,
      buildModel ⟨"T1", Fields.plain nm t (Tag.clauses [("pk", []), ("ai", [])]) Fields.nil⟩
          Option.none
        = .ok ⟨"T1", [(nm, col)], [], [], [], [col], some col, Option.none, [], [], []⟩ ∧
      col.Name = nm) ∧
    (∃ e, buildModel ⟨"T1", Fields.plain nm t (Tag.clauses [("ai", []), ("pk", [])]) Fields.nil⟩
          Option.none
        = .error e) := by
  constructor
  · refine ⟨⟨0, nm, t, 0, 0, false, false, ""⟩, ?_, rfl⟩
    simp [buildModel, parseFields, Model.parseColumn, hu, applyClauses, applyClause,
      Model.setPK, Model.setAI, newColumn, hi, aset, Model.parseMeta, Except.map]
  · refine ⟨"setPK:已经存在自增列，不需要再次指定主键", ?_⟩
    simp [buildModel, parseFields, Model.parseColumn, hu, applyClauses, applyClause,
      Model.setPK, Model.setAI, newColumn, hi, aset, Model.parseMeta, Except.map]

/-- C1 (witness): the amended theorem at the concrete field ID int. -/
theorem pk_then_ai_builds_witness :
    (∃ col : Column,
      buildModel ⟨"T1", Fields.plain "ID" RType.int (Tag.clauses [("pk", []), ("ai", [])]) Fields.nil⟩
          Option.none
        = .ok ⟨"T1", [("ID", col)], [], [], [], [col], some col, Option.none, [], [], []⟩ ∧
      col.Name = "ID") ∧
    (∃ e, buildModel ⟨"T1", Fields.plain "ID" RType.int (Tag.clauses [("ai", []), ("pk", [])]) Fields.nil⟩
          Option.none
        = .error e) :=
  pk_then_ai_builds "ID" RType.int rfl rfl

/-- The Model that New caches for c2rec: the embedded field's column F is
missing because its error was discarded. -/
def c2model : Model :=
  ⟨"Outer", [], [], [], [], [], Option.none, Option.none, [], [], []⟩

/-- The cache state after the (unexpectedly successful) build of c2rec. -/
def c2cache : ModelsMap := ⟨[(c2rec, 0, c2model)], 1⟩

/-- C2: an invalid annotation on the sub-field of an embedded (anonymous)
field does NOT fail the build: parseColumns discards the error returned by
its recursive call, so New succeeds and caches a Model that is missing the
embedded field's column — contradicting the fail-fast claim. -/
theorem embedded_error_swallowed :
    New (GoVal.structV c2rec Option.none) emptyModels = .ok ((0, c2model), c2cache) ∧
    c2model.Cols = [] := by
  decide

/-- The column A of c3rec. -/
def c3colA : Column := ⟨0, "A", RType.string, 0, 0, false, false, ""⟩

/-- The column B of c3rec. -/
def c3colB : Column := ⟨1, "B", RType.string, 0, 0, false, false, ""⟩

/-- The Model built from c3rec: both case-variant names registered. -/
def c3model : Model :=
  ⟨"T3", [("A", c3colA), ("B", c3colB)], [("Idx", [c3colA])], [("idx", [c3colB])],
   [], [], Option.none, Option.none, [], [],
   [("Idx", ConType.index), ("idx", ConType.unique)]⟩

/-- C3: constraint names are NOT unique case-insensitively across namespaces:
registering key index Idx and then unique index idx (equal up to letter
case) succeeds, because the registration sites store names verbatim while
hasConstraint probes only the lowercased name. -/
theorem constraint_case_collision_missed :
    buildModel c3rec Option.none = .ok c3model ∧
    alookup c3model.KeyIndexes "Idx" = some [c3colA] ∧
    alookup c3model.UniqueIndexes "idx" = some [c3colB] ∧
    lowerStr "Idx" = lowerStr "idx" := by
  decide

/-- C5 (counterexample): the iteration order of the Go map model.Cols is
unspecified; under the admissible order that visits Score before Name, the
single generated statement contains the DOUBLE(5,2) column before the
VARCHAR(50) column, so the fixed order asserted by the claim is not
guaranteed by the code. -/
theorem create_table_order_counterexample :
    ([("ID", c5col0), ("Score", c5col2), ("Name", c5col1)]).Perm c5model.Cols ∧
    CreateTableSQLOrd c5model [("ID", c5col0), ("Score", c5col2), ("Name", c5col1)] =
      .ok ["CREATE TABLE IF NOT EXISTS \x7b#User\x7d(\x7bID\x7d BIGINT PRIMARY KEY AUTO_INCREMENT,\x7bScore\x7d DOUBLE(5,2),\x7bName\x7d VARCHAR(50))"] :=
  ⟨by decide, by decide⟩

/-- C5 (amended): for every admissible iteration order of model.Cols,
CreateTableSQL yields exactly one statement; the auto-increment primary-key
integer column is rendered first, the VARCHAR(50) and DOUBLE(5,2) columns
both follow (in one of the two map-iteration orders), and no comma precedes
the closing parenthesis. -/
theorem create_table_end_to_end_amended (ord : List (String × Column))
    (h : ord.Perm c5model.Cols) :
    ∃ a b,
      CreateTableSQLOrd c5model ord =
        .ok ["CREATE TABLE IF NOT EXISTS \x7b#User\x7d(\x7bID\x7d BIGINT PRIMARY KEY AUTO_INCREMENT," ++ a ++ b ++ ")"] ∧
      ((a = "\x7bName\x7d VARCHAR(50)," ∧ b = "\x7bScore\x7d DOUBLE(5,2)") ∨
       (a = "\x7bScore\x7d DOUBLE(5,2)," ∧ b = "\x7bName\x7d VARCHAR(50)")) := by
  have hm : ord ∈ c5model.Cols.permutations' := List.mem_permutations'.2 h
  rw [show c5model.Cols.permutations' =
      [[("ID", c5col0), ("Name", c5col1), ("Score", c5col2)],
       [("Name", c5col1), ("ID", c5col0), ("Score", c5col2)],
       [("Name", c5col1), ("Score", c5col2), ("ID", c5col0)],
       [("ID", c5col0), ("Score", c5col2), ("Name", c5col1)],
       [("Score", c5col2), ("ID", c5col0), ("Name", c5col1)],
       [("Score", c5col2), ("Name", c5col1), ("ID", c5col0)]] from by decide] at hm
  simp only [List.mem_cons, List.not_mem_nil, or_false] at hm
  rcases hm with rfl | rfl | rfl | rfl | rfl | rfl
  · exact ⟨"\x7bName\x7d VARCHAR(50),", "\x7bScore\x7d DOUBLE(5,2)", by decide, Or.inl ⟨rfl, rfl⟩⟩
  · exact ⟨"\x7bName\x7d VARCHAR(50),", "\x7bScore\x7d DOUBLE(5,2)", by decide, Or.inl ⟨rfl, rfl⟩⟩
  · exact ⟨"\x7bName\x7d VARCHAR(50),", "\x7bScore\x7d DOUBLE(5,2)", by decide, Or.inl ⟨rfl, rfl⟩⟩
  · exact ⟨"\x7bScore\x7d DOUBLE(5,2),", "\x7bName\x7d VARCHAR(50)", by decide, Or.inr ⟨rfl, rfl⟩⟩
  · exact ⟨"\x7bScore\x7d DOUBLE(5,2),", "\x7bName\x7d VARCHAR(50)", by decide, Or.inr ⟨rfl, rfl⟩⟩
  · exact ⟨"\x7bScore\x7d DOUBLE(5,2),", "\x7bName\x7d VARCHAR(50)", by decide, Or.inr ⟨rfl, rfl⟩⟩

/-- C5 (witness): the amended theorem at the insertion order of c5model.Cols. -/
theorem create_table_end_to_end_amended_witness :
    ∃ a b,
      CreateTableSQLOrd c5model c5model.Cols =
        .ok ["CREATE TABLE IF NOT EXISTS \x7b#User\x7d(\x7bID\x7d BIGINT PRIMARY KEY AUTO_INCREMENT," ++ a ++ b ++ ")"] ∧
      ((a = "\x7bName\x7d VARCHAR(50)," ∧ b = "\x7bScore\x7d DOUBLE(5,2)") ∨
       (a = "\x7bScore\x7d DOUBLE(5,2)," ∧ b = "\x7bName\x7d VARCHAR(50)")) :=
  create_table_end_to_end_amended c5model.Cols (List.Perm.refl _)

/-- C6: a column whose host type is a struct other than the sql null
wrappers and time.Time does NOT produce an UnsupportedTypeError: sqlType
falls through the inner switch writing nothing, and CreateTableSQL succeeds,
emitting a column definition with no type text. -/
theorem unsupported_struct_type_slips_through :
    sqlType c6col = .ok "" ∧
    CreateTableSQLOrd c6model c6model.Cols =
      .ok ["CREATE TABLE IF NOT EXISTS \x7b#M6\x7d(\x7bC\x7d )"] := by
  decide

/-- C7: building a record type twice returns the identical cached instance
(same instance id, same Model, cache unchanged), and after a cache Clear the
rebuild returns a structurally equal Model under a fresh, distinct instance
id. -/
theorem model_cache_idempotent (v : GoVal) (id0 : Nat) (m : Model) (c1 : ModelsMap)
    (h : New v emptyModels = .ok ((id0, m), c1)) :
    New v c1 = .ok ((id0, m), c1) ∧
    ∃ id1 c2, New v (Clear c1) = .ok ((id1, m), c2) ∧ id1 ≠ id0 := by
  cases hv : derefGoVal v with
  | ptr w => simp [New, hv] at h
  | nonStruct k => simp [New, hv] at h
  | structV rt meta =>
    simp only [New, hv, emptyModels, lookupModels] at h
    cases hb : buildModel rt meta with
    | error e => rw [hb] at h; simp at h
    | ok mm =>
      rw [hb] at h
      simp only [Except.ok.injEq, Prod.mk.injEq] at h
      obtain ⟨⟨h0, hmm⟩, hc⟩ := h
      subst h0
      subst hc
      constructor
      · simp [New, hv, lookupModels, hmm]
      · exact ⟨1, ⟨[(rt, 1, mm)], 2⟩,
          by simp [New, hv, Clear, lookupModels, hb, hmm], by omega⟩

/-- C7 (witness): the caching theorem at the concrete one-field record c7rec. -/
theorem model_cache_idempotent_witness :
    New c7obj c7cache = .ok ((0, c7model), c7cache) ∧
    ∃ id1 c2, New c7obj (Clear c7cache) = .ok ((id1, c7model), c2) ∧ id1 ≠ 0 :=
  model_cache_idempotent c7obj 0 c7model c7cache rfl

/-- C8 (counterexample): two fields resolving to the same final column name
build successfully, and the Cols mapping afterwards holds only the second
field's column (id 1): the second insertion silently replaced the first. -/
theorem col_name_silent_replace :
    buildModel c8rec Option.none =
      .ok ⟨"T8", [("A", ⟨1, "A", RType.int64, 0, 0, false, false, ""⟩)], [], [], [], [],
        Option.none, Option.none, [], [], []⟩ := by
  decide

/-- C8 (amended): insertion into Cols is deferred until all annotation
clauses of the field are applied, so the name clause determines the mapping
key; but the final name is not required to be unique — when a second field
resolves to the first field's name, the map assignment silently replaces the
first column. -/
theorem col_insert_deferred_amended (n1 n2 : String) (t : RType)
    (h1 : isLowerInitial n1 = false) (h2 : isLowerInitial n2 = false) :
    buildModel ⟨"T8", Fields.plain n1 t Tag.noTag
        (Fields.plain n2 t (Tag.clauses [("name", [n1])]) Fields.nil)⟩ Option.none =
      .ok ⟨"T8", [(n1, ⟨1, n1, t, 0, 0, false, false, ""⟩)], [], [], [], [],
        Option.none, Option.none, [], [], []⟩ := by
  simp [buildModel, parseFields, Model.parseColumn, h1, h2, applyClauses, applyClause,
    newColumn, aset, Model.parseMeta, Except.map]

/-- C8 (witness): the amended theorem at the concrete fields A and B. -/
theorem col_insert_deferred_amended_witness :
    buildModel ⟨"T8", Fields.plain "A" RType.int64 Tag.noTag
        (Fields.plain "B" RType.int64 (Tag.clauses [("name", ["A"])]) Fields.nil)⟩ Option.none =
      .ok ⟨"T8", [("A", ⟨1, "A", RType.int64, 0, 0, false, false, ""⟩)], [], [], [], [],
        Option.none, Option.none, [], [], []⟩ :=
  col_insert_deferred_amended "A" "B" RType.int64 rfl rfl

/-- C9 (counterexample): a fk clause with six arguments is NOT rejected: the
foreign key registers with the first five arguments and the sixth is
silently ignored. -/
theorem fk_six_args_accepted :
    Model.setFK fkModel fkCol ["n", "rt", "rc", "u", "d", "extra"] =
      .ok { fkModel with
            constraints := [("n", ConType.fk)],
            FK := [("n", ⟨fkCol, "rt", "rc", "u", "d"⟩)] } := by
  decide

/-- C9 (amended): setFK rejects fewer than 3 arguments with an arity error;
with 3, 4 or 5 arguments it registers a foreign key carrying exactly the
supplied optional rules; arguments beyond the fifth are silently ignored
rather than rejected. -/
theorem fk_arity_amended (m : Model) (col : Column) (a b c d e x : String)
    (vals : List String) (hlen : vals.length < 3)
    (hno : m.hasConstraint a ConType.fk = ConType.none)
    (hfk : alookup m.FK a = Option.none) :
    Model.setFK m col vals = .error "setFK:fk参数必须大于3个" ∧
    Model.setFK m col [a, b, c] =
      .ok { m with
            constraints := aset m.constraints a ConType.fk,
            FK := aset m.FK a ⟨col, b, c, "", ""⟩ } ∧
    Model.setFK m col [a, b, c, d] =
      .ok { m with
            constraints := aset m.constraints a ConType.fk,
            FK := aset m.FK a ⟨col, b, c, d, ""⟩ } ∧
    Model.setFK m col [a, b, c, d, e] =
      .ok { m with
            constraints := aset m.constraints a ConType.fk,
            FK := aset m.FK a ⟨col, b, c, d, e⟩ } ∧
    Model.setFK m col [a, b, c, d, e, x] =
      .ok { m with
            constraints := aset m.constraints a ConType.fk,
            FK := aset m.FK a ⟨col, b, c, d, e⟩ } := by
  refine ⟨?_, ?_, ?_, ?_, ?_⟩
  · rcases vals with _ | ⟨v0, _ | ⟨v1, _ | ⟨v2, rest⟩⟩⟩
    · rfl
    · rfl
    · rfl
    · exfalso; simp at hlen; omega
  all_goals simp [Model.setFK, hno, hfk, List.getD]

/-- C9 (witness): the amended arity theorem at a concrete empty model. -/
theorem fk_arity_amended_witness :
    Model.setFK fkModel fkCol [] = .error "setFK:fk参数必须大于3个" ∧
    Model.setFK fkModel fkCol ["n", "rt", "rc"] =
      .ok { fkModel with
            constraints := aset fkModel.constraints "n" ConType.fk,
            FK := aset fkModel.FK "n" ⟨fkCol, "rt", "rc", "", ""⟩ } ∧
    Model.setFK fkModel fkCol ["n", "rt", "rc", "u"] =
      .ok { fkModel with
            constraints := aset fkModel.constraints "n" ConType.fk,
            FK := aset fkModel.FK "n" ⟨fkCol, "rt", "rc", "u", ""⟩ } ∧
    Model.setFK fkModel fkCol ["n", "rt", "rc", "u", "d"] =
      .ok { fkModel with
            constraints := aset fkModel.constraints "n" ConType.fk,
            FK := aset fkModel.FK "n" ⟨fkCol, "rt", "rc", "u", "d"⟩ } ∧
    Model.setFK fkModel fkCol ["n", "rt", "rc", "u", "d", "x"] =
      .ok { fkModel with
            constraints := aset fkModel.constraints "n" ConType.fk,
            FK := aset fkModel.FK "n" ⟨fkCol, "rt", "rc", "u", "d"⟩ } :=
  fk_arity_amended fkModel fkCol "n" "rt" "rc" "u" "d" "x" [] (by decide) rfl rfl

/-- C10: setOCC checks its preconditions before reading the boolean
argument: with argument false it errors when the column is the AI column,
when it is nullable, when an OCC column already exists, or when the column
is not of integer kind; when every precondition holds it succeeds leaving
the model (and hence OCC) unchanged; and a non-boolean literal argument is
an error. -/
theorem occ_preconditions_before_argument (m : Model) (c : Column) :
    (m.IsAI c = true →
      Model.setOCC m c ["false"] = .error "自增列和允许为空的列不能作为乐观锁列") ∧
    (c.Nullable = true →
      Model.setOCC m c ["false"] = .error "自增列和允许为空的列不能作为乐观锁列") ∧
    (m.IsAI c = false → c.Nullable = false → m.OCC.isSome = true →
      Model.setOCC m c ["false"] = .error "已经存在一个乐观锁") ∧
    (m.IsAI c = false → c.Nullable = false → m.OCC = Option.none →
      isIntegerKind c.GoType = false →
      Model.setOCC m c ["false"] = .error "乐观锁只能是数值类型") ∧
    (m.IsAI c = false → c.Nullable = false → m.OCC = Option.none →
      isIntegerKind c.GoType = true →
      Model.setOCC m c ["false"] = .ok m) ∧
    (m.IsAI c = false → c.Nullable = false → m.OCC = Option.none →
      isIntegerKind c.GoType = true →
      Model.setOCC m c ["abc"] = .error "strconv.ParseBool: parsing abc: invalid syntax") := by
  refine ⟨?_, ?_, ?_, ?_, ?_, ?_⟩
  · intro hai
    simp [Model.setOCC, hai]
  · intro hnull
    simp [Model.setOCC, hnull]
  · intro hai hnull hocc
    simp [Model.setOCC, hai, hnull, hocc]
  · intro hai hnull hocc hint
    simp [Model.setOCC, hai, hnull, hocc, hint]
  · intro hai hnull hocc hint
    simp only [Model.setOCC, hai, hnull, hocc, hint]
    rfl
  · intro hai hnull hocc hint
    simp only [Model.setOCC, hai, hnull, hocc, hint]
    rfl

/-- C10 (witness): each precondition branch of the occ theorem at concrete
models and columns. -/
theorem occ_preconditions_witness :
    Model.setOCC occModelAI occIntCol ["false"] = .error "自增列和允许为空的列不能作为乐观锁列" ∧
    Model.setOCC occModel occNullCol ["false"] = .error "自增列和允许为空的列不能作为乐观锁列" ∧
    Model.setOCC occModelOCC occIntCol ["false"] = .error "已经存在一个乐观锁" ∧
    Model.setOCC occModel occStrCol ["false"] = .error "乐观锁只能是数值类型" ∧
    Model.setOCC occModel occIntCol ["false"] = .ok occModel ∧
    Model.setOCC occModel occIntCol ["abc"] = .error "strconv.ParseBool: parsing abc: invalid syntax" :=
  ⟨(occ_preconditions_before_argument occModelAI occIntCol).1 rfl,
   (occ_preconditions_before_argument occModel occNullCol).2.1 rfl,
   (occ_preconditions_before_argument occModelOCC occIntCol).2.2.1 rfl rfl rfl,
   (occ_preconditions_before_argument occModel occStrCol).2.2.2.1 rfl rfl rfl rfl,
   (occ_preconditions_before_argument occModel occIntCol).2.2.2.2.1 rfl rfl rfl rfl,
   (occ_preconditions_before_argument occModel occIntCol).2.2.2.2.2 rfl rfl rfl rfl⟩
